import Mathlib

/-!
Verification of the pontoon boat design calculator (`pontoon_calc.py`).

The computational core of the program is two pure functions over Python
floats: `calculate_design` (forward evaluation of geometry, weights,
buoyancy and a pass/fail status) and `optimize_design` (an inverse sizing
heuristic).  We embed both over the real numbers:

* the program's hard-coded constant `3.141592653589793` (and `math.pi`,
  which denotes the very same double) is embedded as the rational literal
  `pi_lit`;
* Python's `x ** 0.5` on a nonnegative argument is `Real.sqrt`;
* Python's `x ** (1.0/3.0)` on a nonnegative base is `Real.rpow x (1/3)`;
* Python raises an uncaught `ZeroDivisionError` on float division by zero,
  and an uncaught `TypeError` when `round` is applied to the complex number
  produced by `(negative) ** (1.0/3.0)`; both uncaught exceptions are
  modelled by the `Except` error branch with a constructor naming the
  escaping exception.  The code contains no exception handler and no typed
  error value of its own, so every `Except.error` below denotes an uncaught
  fault escaping to the caller.
-/

namespace PontoonCalc

/-- The literal constant `3.141592653589793` used by the source for pi in
`calculate_design`; `math.pi` used in `optimize_design` is the same double. -/
noncomputable def pi_lit : ℝ := 3.141592653589793

/-- The twelve input fields gathered by the GUI and passed to
`calculate_design` / `optimize_design` (`_gather_inputs` in the source);
`num_cross_beams` is collected with `int(...)`, all other fields with
`float(...)`. -/
structure Params where
  payload : ℝ
  safety_factor : ℝ
  submersion_pct : ℝ
  diameter_in : ℝ
  length_ft : ℝ
  cone_pct : ℝ
  foam_density : ℝ
  coating_weight : ℝ
  water_density : ℝ
  cross_beam_length : ℝ
  num_cross_beams : ℤ
  tube_weight : ℝ

/-- Source line `submersion_pct = params['submersion_pct'] / 100.0`. -/
noncomputable def submersion_frac (p : Params) : ℝ := p.submersion_pct / 100

/-- Source line `diameter_ft = diameter_in / 12.0`. -/
noncomputable def diameter_ft (p : Params) : ℝ := p.diameter_in / 12

/-- Source line `cone_pct = params['cone_pct'] / 100.0`. -/
noncomputable def cone_frac (p : Params) : ℝ := p.cone_pct / 100

/-- Source line `radius_ft = diameter_ft / 2.0`. -/
noncomputable def radius_ft (p : Params) : ℝ := diameter_ft p / 2

/-- Source line `cone_length_ft = length_ft * cone_pct`. -/
noncomputable def cone_length_ft (p : Params) : ℝ := p.length_ft * cone_frac p

/-- Source line `cylinder_length_ft = length_ft * (1 - cone_pct)`. -/
noncomputable def cylinder_length_ft (p : Params) : ℝ := p.length_ft * (1 - cone_frac p)

/-- Source: `cylinder_volume = 3.141592653589793 * radius_ft**2 * cylinder_length_ft`. -/
noncomputable def cylinder_volume (p : Params) : ℝ :=
  pi_lit * (radius_ft p) ^ 2 * cylinder_length_ft p

/-- Source: `cone_volume = (1.0/3.0) * 3.141592653589793 * radius_ft**2 * cone_length_ft`. -/
noncomputable def cone_volume (p : Params) : ℝ :=
  (1 / 3) * pi_lit * (radius_ft p) ^ 2 * cone_length_ft p

/-- Source: `total_volume_per_pontoon = cylinder_volume + cone_volume`. -/
noncomputable def total_volume_per_pontoon (p : Params) : ℝ :=
  cylinder_volume p + cone_volume p

/-- Source: `total_volume_both = 2 * total_volume_per_pontoon`. -/
noncomputable def total_volume_both (p : Params) : ℝ := 2 * total_volume_per_pontoon p

/-- Source: `cylinder_surface_area = 2 * 3.141592653589793 * radius_ft * cylinder_length_ft`. -/
noncomputable def cylinder_surface_area (p : Params) : ℝ :=
  2 * pi_lit * radius_ft p * cylinder_length_ft p

/-- Source: `slant_height = (radius_ft**2 + cone_length_ft**2)**0.5`; the
argument is a sum of squares, hence nonnegative, so Python's `** 0.5` is the
real square root. -/
noncomputable def slant_height (p : Params) : ℝ :=
  Real.sqrt ((radius_ft p) ^ 2 + (cone_length_ft p) ^ 2)

/-- Source: `cone_surface_area = 3.141592653589793 * radius_ft * slant_height`. -/
noncomputable def cone_surface_area (p : Params) : ℝ :=
  pi_lit * radius_ft p * slant_height p

/-- Source: `end_cap_area = 3.141592653589793 * radius_ft**2`. -/
noncomputable def end_cap_area (p : Params) : ℝ := pi_lit * (radius_ft p) ^ 2

/-- Source: `total_surface_area_per_pontoon = cylinder_surface_area +
cone_surface_area + end_cap_area`. -/
noncomputable def total_surface_area_per_pontoon (p : Params) : ℝ :=
  cylinder_surface_area p + cone_surface_area p + end_cap_area p

/-- Source: `total_surface_area_both = 2 * total_surface_area_per_pontoon`. -/
noncomputable def total_surface_area_both (p : Params) : ℝ :=
  2 * total_surface_area_per_pontoon p

/-- Source: `foam_weight_per_pontoon = total_volume_per_pontoon * foam_density`. -/
noncomputable def foam_weight_per_pontoon (p : Params) : ℝ :=
  total_volume_per_pontoon p * p.foam_density

/-- Source: `coating_weight_per_pontoon = total_surface_area_per_pontoon * coating_weight`. -/
noncomputable def coating_weight_per_pontoon (p : Params) : ℝ :=
  total_surface_area_per_pontoon p * p.coating_weight

/-- Source: `pontoon_weight = 2 * (foam_weight_per_pontoon + coating_weight_per_pontoon)`. -/
noncomputable def pontoon_weight (p : Params) : ℝ :=
  2 * (foam_weight_per_pontoon p + coating_weight_per_pontoon p)

/-- Source: `total_tube_length = (num_cross_beams * cross_beam_length) + (2 * length_ft)`. -/
noncomputable def total_tube_length (p : Params) : ℝ :=
  (p.num_cross_beams : ℝ) * p.cross_beam_length + 2 * p.length_ft

/-- Source: `frame_weight = total_tube_length * tube_weight`. -/
noncomputable def frame_weight (p : Params) : ℝ := total_tube_length p * p.tube_weight

/-- Source: `total_boat_weight = payload + pontoon_weight + frame_weight`. -/
noncomputable def total_boat_weight (p : Params) : ℝ :=
  p.payload + pontoon_weight p + frame_weight p

/-- Source: `submerged_volume_per_pontoon = total_volume_per_pontoon * submersion_pct`. -/
noncomputable def submerged_volume_per_pontoon (p : Params) : ℝ :=
  total_volume_per_pontoon p * submersion_frac p

/-- Source: `total_buoyant_force = 2 * submerged_volume_per_pontoon * water_density`. -/
noncomputable def total_buoyant_force (p : Params) : ℝ :=
  2 * submerged_volume_per_pontoon p * p.water_density

/-- Source: `required_displacement = total_boat_weight * safety_factor`. -/
noncomputable def required_displacement (p : Params) : ℝ :=
  total_boat_weight p * p.safety_factor

/-- Source: `draft_ft = diameter_ft * submersion_pct`. -/
noncomputable def draft_ft (p : Params) : ℝ := diameter_ft p * submersion_frac p

/-- Source: `actual_safety_factor = total_buoyant_force / total_boat_weight`.
In Lean real division by zero yields zero, but `calculate_design` below only
exposes this quantity when `total_boat_weight` is nonzero, mirroring the
Python `ZeroDivisionError` raised otherwise. -/
noncomputable def actual_safety_factor (p : Params) : ℝ :=
  total_buoyant_force p / total_boat_weight p

/-- Source: `reserve_buoyancy = total_buoyant_force - total_boat_weight`. -/
noncomputable def reserve_buoyancy (p : Params) : ℝ :=
  total_buoyant_force p - total_boat_weight p

/-- Source lines 87-90: `status = 'INSUFFICIENT BUOYANCY'` when
`total_buoyant_force < required_displacement`, else `'VIABLE'`. -/
noncomputable def status (p : Params) : String :=
  if total_buoyant_force p < required_displacement p then "INSUFFICIENT BUOYANCY"
  else "VIABLE"

/-- The result dictionary assembled at the end of `calculate_design`
(lines 134-150 of the source), one field per dictionary key; the
`explanation` string of formatted text blocks is omitted from the model.
Note the only draft field is `draft_in` (key `'draft_in'`, value
`draft_ft * 12.0`); no draft-in-feet key is present in the dictionary. -/
structure DesignResults where
  total_boat_weight : ℝ
  total_buoyant_force : ℝ
  actual_safety_factor : ℝ
  reserve_buoyancy : ℝ
  draft_in : ℝ
  volume_per_pontoon : ℝ
  cylinder_length : ℝ
  cone_length : ℝ
  pontoon_weight : ℝ
  frame_weight : ℝ
  total_volume_both : ℝ
  total_surface_area_both : ℝ
  total_tube_length : ℝ
  status : String

/-- The result record `calculate_design` returns when it does not fault. -/
noncomputable def mkResults (p : Params) : DesignResults :=
  { total_boat_weight := total_boat_weight p
    total_buoyant_force := total_buoyant_force p
    actual_safety_factor := actual_safety_factor p
    reserve_buoyancy := reserve_buoyancy p
    draft_in := draft_ft p * 12
    volume_per_pontoon := total_volume_per_pontoon p
    cylinder_length := cylinder_length_ft p
    cone_length := cone_length_ft p
    pontoon_weight := pontoon_weight p
    frame_weight := frame_weight p
    total_volume_both := total_volume_both p
    total_surface_area_both := total_surface_area_both p
    total_tube_length := total_tube_length p
    status := status p }

/-- Uncaught Python exceptions that can escape the two core functions:
`ZeroDivisionError` from float division by zero, and `TypeError` from
`round` applied to the complex value of `(negative) ** (1.0/3.0)`.
Neither function catches exceptions or returns an error value of its own. -/
inductive PyFault where
  | uncaughtZeroDivisionError
  | uncaughtTypeError
deriving DecidableEq

/-- The function `calculate_design(params)` of the source.  Every run
evaluates `total_buoyant_force / total_boat_weight` (line 83), so a run with
`total_boat_weight = 0` raises an uncaught `ZeroDivisionError` and returns
nothing; otherwise the result dictionary `mkResults` is returned. -/
noncomputable def calculate_design (p : Params) : Except PyFault DesignResults :=
  if total_boat_weight p = 0 then .error .uncaughtZeroDivisionError
  else .ok (mkResults p)

/-- Python's built-in `round(x)` on a float: round half to even, to an int. -/
noncomputable def pyRound (x : ℝ) : ℤ :=
  if Int.fract x < 1 / 2 then ⌊x⌋
  else if 1 / 2 < Int.fract x then ⌊x⌋ + 1
  else if Even ⌊x⌋ then ⌊x⌋ else ⌊x⌋ + 1

/-- Python's `round(x, 2)` on a float: round to the nearest multiple of
`1/100`, half to even (exact decimal ties do not arise at the inputs
considered in this file, so double-rounding subtleties of the float
implementation are immaterial). -/
noncomputable def pyRound2 (x : ℝ) : ℝ := (pyRound (x * 100) : ℝ) / 100

/-- Source lines 168-170 of `optimize_design`:
`required_vol_per_pontoon = ((payload * 1.4) * safety_factor / 2.0) /
(water_density * submersion_pct)` with `submersion_pct` already divided
by 100. -/
noncomputable def opt_required_vol (p : Params) : ℝ :=
  p.payload * 1.4 * p.safety_factor / 2 / (p.water_density * (p.submersion_pct / 100))

/-- Source line 177: `diameter_ft = (required_vol_per_pontoon / math.pi) ** (1.0/3.0)`,
for a nonnegative base (the negative-base case faults before this value is
consumed, see `optimize_design`). -/
noncomputable def opt_diameter_ft (p : Params) : ℝ :=
  (opt_required_vol p / pi_lit) ^ ((1 : ℝ) / 3)

/-- The function `optimize_design(params)` of the source.  The division on
line 170 raises an uncaught `ZeroDivisionError` when
`water_density * (submersion_pct/100)` is zero.  When the cube-root base is
negative, Python's float power returns a complex number and the subsequent
`round` raises an uncaught `TypeError`.  Otherwise the pair
`(round(diameter_ft * 12.0), round(diameter_ft * 4.0, 2))` is returned. -/
noncomputable def optimize_design (p : Params) : Except PyFault (ℤ × ℝ) :=
  if p.water_density * (p.submersion_pct / 100) = 0 then .error .uncaughtZeroDivisionError
  else if opt_required_vol p / pi_lit < 0 then .error .uncaughtTypeError
  else .ok (pyRound (opt_diameter_ft p * 12), pyRound2 (opt_diameter_ft p * 4))

/-- The GUI's default input values (`_build_input_fields` in the source). -/
noncomputable def defaultParams : Params :=
  { payload := 100
    safety_factor := 1.8
    submersion_pct := 60
    diameter_in := 12
    length_ft := 6
    cone_pct := 25
    foam_density := 1
    coating_weight := 0.03
    water_density := 64
    cross_beam_length := 4
    num_cross_beams := 4
    tube_weight := 0.78 }

/-- The default input with the diameter and length suggested by
`optimize_design` merged in, exactly as the `on_optimize` handler does
(diameter stays 12 inches, length becomes 4.06 ft). -/
noncomputable def roundtripParams : Params := { defaultParams with length_ft := 4.06 }

/-- The zero-weight input of the specification's edge case: zero payload and
zero material and frame weights, geometry left at the defaults. -/
noncomputable def zeroWeightParams : Params :=
  { defaultParams with
    payload := 0
    foam_density := 0
    coating_weight := 0
    tube_weight := 0
    cross_beam_length := 0
    num_cross_beams := 0 }

/-- The default input with payload zero (a non-positive payload). -/
noncomputable def zeroPayloadParams : Params := { defaultParams with payload := 0 }

/-- The default input with a negative payload. -/
noncomputable def negPayloadParams : Params := { defaultParams with payload := -100 }

/-- The default input with water density zero. -/
noncomputable def zeroWaterParams : Params := { defaultParams with water_density := 0 }

/-- The default input with a degenerate cone (cone percentage zero). -/
noncomputable def coneZeroParams : Params := { defaultParams with cone_pct := 0 }

/-- The default input with diameter -24 inches. -/
noncomputable def negDiaSmall : Params := { defaultParams with diameter_in := -24 }

/-- The default input with diameter -12 inches (larger than -24). -/
noncomputable def negDiaLarge : Params := { defaultParams with diameter_in := -12 }

/-- Rounding helper: any real strictly within half a unit of the integer `n`
is rounded to `n` by Python's `round`. -/
theorem pyRound_eq (x : ℝ) (n : ℤ) (h1 : (n : ℝ) - 1 / 2 < x) (h2 : x < (n : ℝ) + 1 / 2) :
    pyRound x = n := by
  unfold pyRound
  rcases le_or_lt (n : ℝ) x with hx | hx
  · have hf : ⌊x⌋ = n := by
      rw [Int.floor_eq_iff]
      exact ⟨hx, by linarith⟩
    have hfr : Int.fract x < 1 / 2 := by
      have : Int.fract x = x - (n : ℝ) := by rw [Int.fract, hf]
      rw [this]
      linarith
    rw [if_pos hfr, hf]
  · have hf : ⌊x⌋ = n - 1 := by
      rw [Int.floor_eq_iff]
      constructor
      · push_cast; linarith
      · push_cast; linarith
    have hfr : 1 / 2 < Int.fract x := by
      have : Int.fract x = x - ((n : ℝ) - 1) := by rw [Int.fract, hf]; push_cast; ring
      rw [this]
      linarith
    rw [if_neg (by linarith), if_pos hfr, hf]
    omega

/-- Cube-root bound: a nonnegative real below the cube of the target bounds
the real cube root from below. -/
theorem lt_rpow_third {a v : ℝ} (ha : 0 ≤ a) (h : a ^ (3 : ℕ) < v) :
    a < v ^ ((1 : ℝ) / 3) := by
  have h3 : (a ^ (3 : ℝ)) ^ ((1 : ℝ) / 3) = a := by
    rw [← Real.rpow_mul ha]
    norm_num
  calc a = (a ^ (3 : ℝ)) ^ ((1 : ℝ) / 3) := h3.symm
    _ < v ^ ((1 : ℝ) / 3) := by
        apply Real.rpow_lt_rpow (Real.rpow_nonneg ha 3) ?_ (by norm_num)
        rw [show (3 : ℝ) = ((3 : ℕ) : ℝ) by norm_num, Real.rpow_natCast]
        exact h

/-- Cube-root bound: the real cube root of a nonnegative real is below any
value whose cube dominates it. -/
theorem rpow_third_lt {v b : ℝ} (hv : 0 ≤ v) (h : v < b ^ (3 : ℕ)) :
    v ^ ((1 : ℝ) / 3) < b := by
  have hb : 0 ≤ b := by nlinarith [sq_nonneg b]
  have h3 : (b ^ (3 : ℝ)) ^ ((1 : ℝ) / 3) = b := by
    rw [← Real.rpow_mul hb]
    norm_num
  calc v ^ ((1 : ℝ) / 3) < (b ^ (3 : ℝ)) ^ ((1 : ℝ) / 3) := by
        apply Real.rpow_lt_rpow hv ?_ (by norm_num)
        rw [show (3 : ℝ) = ((3 : ℕ) : ℝ) by norm_num, Real.rpow_natCast]
        exact h
    _ = b := h3

/-- At the default input the optimizer's required volume per pontoon is
(100 * 1.4 * 1.8 / 2) / (64 * 0.6) = 3.28125 cubic feet. -/
theorem opt_default_required_vol : opt_required_vol defaultParams = 3.28125 := by
  norm_num [opt_required_vol, defaultParams]

/-- At the default input the optimizer's unrounded diameter lies strictly
between 1.014 ft and 1.016 ft. -/
theorem opt_default_dft_bounds :
    (1.014 : ℝ) < opt_diameter_ft defaultParams ∧ opt_diameter_ft defaultParams < 1.016 := by
  have hpi : (0 : ℝ) < pi_lit := by norm_num [pi_lit]
  unfold opt_diameter_ft
  rw [opt_default_required_vol]
  constructor
  · apply lt_rpow_third (by norm_num)
    rw [lt_div_iff₀ hpi]
    norm_num [pi_lit]
  · apply rpow_third_lt (by positivity)
    rw [div_lt_iff₀ hpi]
    norm_num [pi_lit]

/-- At the default input the optimizer rounds its diameter to 12 inches. -/
theorem opt_default_dia : pyRound (opt_diameter_ft defaultParams * 12) = 12 := by
  obtain ⟨hlo, hhi⟩ := opt_default_dft_bounds
  apply pyRound_eq _ 12
  · push_cast; linarith
  · push_cast; linarith

/-- At the default input the optimizer rounds its length (four times the
unrounded diameter) to 4.06 ft. -/
theorem opt_default_len : pyRound2 (opt_diameter_ft defaultParams * 4) = 4.06 := by
  obtain ⟨hlo, hhi⟩ := opt_default_dft_bounds
  unfold pyRound2
  have h : pyRound (opt_diameter_ft defaultParams * 4 * 100) = 406 := by
    apply pyRound_eq _ 406
    · push_cast; linarith
    · push_cast; linarith
  rw [h]
  norm_num

/-- At the default input `optimize_design` returns the pair (12, 4.06). -/
theorem optimize_default_eval : optimize_design defaultParams = .ok (12, 4.06) := by
  have hA : ¬(defaultParams.water_density * (defaultParams.submersion_pct / 100) = 0) := by
    norm_num [defaultParams]
  have hB : ¬(opt_required_vol defaultParams / pi_lit < 0) := by
    rw [opt_default_required_vol]
    push_neg
    have hpi : (0 : ℝ) < pi_lit := by norm_num [pi_lit]
    positivity
  simp only [optimize_design, if_neg hA, if_neg hB, opt_default_dia, opt_default_len]

/-- At the round-trip input the slant height is the square root of
0.25 + 1.015 squared, which exceeds 1.131. -/
theorem roundtrip_slant_lower : (1.131 : ℝ) < slant_height roundtripParams := by
  have harg : (radius_ft roundtripParams) ^ 2 + (cone_length_ft roundtripParams) ^ 2
      = (1.280225 : ℝ) := by
    norm_num [radius_ft, diameter_ft, cone_length_ft, cone_frac, roundtripParams, defaultParams]
  unfold slant_height
  rw [harg, Real.lt_sqrt (by norm_num)]
  norm_num

/-- Feeding the optimizer's suggestion (12 inch diameter, 4.06 ft length)
back into the evaluator with the remaining defaults leaves the buoyant force
strictly below the required displacement. -/
theorem roundtrip_buoyancy_lt_required :
    total_buoyant_force roundtripParams < required_displacement roundtripParams := by
  obtain ⟨s, hs_eq, hs, hs0⟩ :
      ∃ s, slant_height roundtripParams = s ∧ (1.131 : ℝ) < s ∧ 0 ≤ s :=
    ⟨_, rfl, roundtrip_slant_lower, Real.sqrt_nonneg _⟩
  unfold total_buoyant_force required_displacement total_boat_weight
    submerged_volume_per_pontoon submersion_frac pontoon_weight foam_weight_per_pontoon
    coating_weight_per_pontoon frame_weight total_tube_length total_surface_area_per_pontoon
    cylinder_surface_area cone_surface_area end_cap_area total_volume_per_pontoon
    cylinder_volume cone_volume cylinder_length_ft cone_length_ft cone_frac radius_ft
    diameter_ft pi_lit
  rw [hs_eq]
  norm_num [roundtripParams, defaultParams]
  nlinarith [hs, hs0]

/-- The round-trip input has positive total boat weight, so the evaluator
returns a result record rather than faulting. -/
theorem roundtrip_weight_pos : 0 < total_boat_weight roundtripParams := by
  obtain ⟨s, hs_eq, hs0⟩ :
      ∃ s, slant_height roundtripParams = s ∧ 0 ≤ s := ⟨_, rfl, Real.sqrt_nonneg _⟩
  unfold total_boat_weight pontoon_weight foam_weight_per_pontoon
    coating_weight_per_pontoon frame_weight total_tube_length total_surface_area_per_pontoon
    cylinder_surface_area cone_surface_area end_cap_area total_volume_per_pontoon
    cylinder_volume cone_volume cylinder_length_ft cone_length_ft cone_frac radius_ft
    diameter_ft pi_lit
  rw [hs_eq]
  norm_num [roundtripParams, defaultParams]
  nlinarith [hs0]

/-- At the round-trip input the evaluator's status is insufficient buoyancy. -/
theorem roundtrip_status : status roundtripParams = "INSUFFICIENT BUOYANCY" := by
  unfold status
  rw [if_pos roundtrip_buoyancy_lt_required]

/-- Claim C3 counterexample: on the stated input the optimizer suggests
(12 inches, 4.06 ft), but substituting that pair back into the evaluator
(other fields at the defaults) does not yield status `VIABLE`: the evaluator
returns a record whose status differs from `VIABLE`. -/
theorem optimize_roundtrip_default_not_viable :
    optimize_design defaultParams = .ok (12, 4.06) ∧
    roundtripParams = { defaultParams with diameter_in := 12, length_ft := 4.06 } ∧
    calculate_design roundtripParams = .ok (mkResults roundtripParams) ∧
    (mkResults roundtripParams).status ≠ "VIABLE" := by
  refine ⟨optimize_default_eval, rfl, ?_, ?_⟩
  · unfold calculate_design
    rw [if_neg roundtrip_weight_pos.ne']
  · show status roundtripParams ≠ "VIABLE"
    rw [roundtrip_status]
    decide

/-- Claim C3 amended: on the stated input the optimizer suggests the pair
(12 inches, 4.06 ft), and feeding that pair back into the evaluator with the
other default values held fixed yields status `INSUFFICIENT BUOYANCY`, not
`VIABLE`: the optimizer's 1.4 weight guess and pure-cylinder volume model do
not survive the default 25 percent cone and the rounding of the diameter. -/
theorem optimize_roundtrip_default_insufficient :
    optimize_design defaultParams = .ok (12, 4.06) ∧
    calculate_design roundtripParams = .ok (mkResults roundtripParams) ∧
    (mkResults roundtripParams).status = "INSUFFICIENT BUOYANCY" := by
  refine ⟨optimize_default_eval, ?_, ?_⟩
  · unfold calculate_design
    rw [if_neg roundtrip_weight_pos.ne']
  · show status roundtripParams = "INSUFFICIENT BUOYANCY"
    exact roundtrip_status

/-- Claim C10: at the default input the optimizer returns the pair
(12, 4.06); the returned length is the 2-decimal rounding of four times the
unrounded diameter (1.0146 ft), not of the rounded 12-inch diameter, so the
returned pair violates the exact 4:1 relation: 4.06 differs from
4 times (12 / 12). -/
theorem optimize_length_rounding_independent :
    optimize_design defaultParams = .ok (12, 4.06) ∧
    pyRound2 (opt_diameter_ft defaultParams * 4) = 4.06 ∧
    pyRound (opt_diameter_ft defaultParams * 12) = 12 ∧
    (4.06 : ℝ) ≠ 4 * ((12 : ℝ) / 12) :=
  ⟨optimize_default_eval, opt_default_len, opt_default_dia, by norm_num⟩

/-- At the zero-weight input (zero payload, material and frame weights) the
total boat weight computed by the evaluator is exactly zero. -/
theorem zeroWeight_weight_eq : total_boat_weight zeroWeightParams = 0 := by
  unfold total_boat_weight pontoon_weight foam_weight_per_pontoon
    coating_weight_per_pontoon frame_weight total_tube_length
  norm_num [zeroWeightParams, defaultParams]

/-- Claim C5 counterexample: at the zero-weight input the evaluator raises an
uncaught `ZeroDivisionError` at the `actual_safety_factor` division (modelled
as the error branch named after the escaping exception); no typed
division-by-zero error value is returned, because the code performs no
precondition check and has no error vocabulary. -/
theorem zero_weight_uncaught_division_fault :
    total_boat_weight zeroWeightParams = 0 ∧
    calculate_design zeroWeightParams = .error .uncaughtZeroDivisionError := by
  refine ⟨zeroWeight_weight_eq, ?_⟩
  unfold calculate_design
  rw [if_pos zeroWeight_weight_eq]

/-- Claim C5 amended: whenever the input makes the total boat weight zero,
the evaluator raises an uncaught `ZeroDivisionError` (it neither produces
NaN or infinity nor returns a typed error value: the failure is the
unhandled exception escaping to the caller). -/
theorem weight_zero_raises_zero_division (p : Params)
    (h : total_boat_weight p = 0) :
    calculate_design p = .error .uncaughtZeroDivisionError := by
  unfold calculate_design
  rw [if_pos h]

/-- Witness for the amended claim C5 at the concrete zero-weight input. -/
theorem weight_zero_raises_zero_division_witness :
    total_boat_weight zeroWeightParams = 0 ∧
    calculate_design zeroWeightParams = .error .uncaughtZeroDivisionError :=
  ⟨zeroWeight_weight_eq, weight_zero_raises_zero_division zeroWeightParams zeroWeight_weight_eq⟩

/-- Claim C6 counterexample: the input with payload 0 (a non-positive
payload) and the other defaults is not rejected: the optimizer happily
computes and returns the pair (0, 0), with no `InvalidInput` error of any
kind (the code contains no input validation at all). -/
theorem optimize_zero_payload_returns_result :
    zeroPayloadParams.payload ≤ 0 ∧
    optimize_design zeroPayloadParams = .ok (0, 0) := by
  have hA : ¬(zeroPayloadParams.water_density * (zeroPayloadParams.submersion_pct / 100) = 0) := by
    norm_num [zeroPayloadParams, defaultParams]
  have hreq : opt_required_vol zeroPayloadParams = 0 := by
    norm_num [opt_required_vol, zeroPayloadParams, defaultParams]
  have hB : ¬(opt_required_vol zeroPayloadParams / pi_lit < 0) := by
    rw [hreq]
    norm_num
  have hd : opt_diameter_ft zeroPayloadParams = 0 := by
    unfold opt_diameter_ft
    rw [hreq, zero_div, Real.zero_rpow (by norm_num)]
  have h0 : pyRound (0 : ℝ) = 0 := pyRound_eq 0 0 (by norm_num) (by norm_num)
  refine ⟨by norm_num [zeroPayloadParams, defaultParams], ?_⟩
  simp only [optimize_design, if_neg hA, if_neg hB, hd]
  norm_num [pyRound2, h0]

/-- Claim C6 amended: the optimizer performs no input validation.  When
`water_density * (submersion_pct / 100)` is zero the division on line 170
raises an uncaught `ZeroDivisionError` (not a typed error value); any other
non-positive input is not rejected (for example payload 0 simply returns the
pair (0, 0), see the counterexample). -/
theorem optimize_zero_denominator_division_fault (p : Params)
    (h : p.water_density * (p.submersion_pct / 100) = 0) :
    optimize_design p = .error .uncaughtZeroDivisionError := by
  unfold optimize_design
  rw [if_pos h]

/-- Witness for the amended claim C6 at water density zero. -/
theorem optimize_zero_denominator_division_fault_witness :
    zeroWaterParams.water_density * (zeroWaterParams.submersion_pct / 100) = 0 ∧
    optimize_design zeroWaterParams = .error .uncaughtZeroDivisionError := by
  have h : zeroWaterParams.water_density * (zeroWaterParams.submersion_pct / 100) = 0 := by
    norm_num [zeroWaterParams, defaultParams]
  exact ⟨h, optimize_zero_denominator_division_fault zeroWaterParams h⟩

/-- Claim C7 counterexample: at payload -100 with the default (positive)
safety factor, submersion and water density, the optimizer does not return
the rounded closed-form pair: the cube-root base is negative, Python's float
power yields a complex number and `round` then raises an uncaught
`TypeError`, so the call faults instead of returning a value. -/
theorem optimize_negative_payload_type_fault :
    0 < negPayloadParams.safety_factor ∧
    0 < negPayloadParams.submersion_pct ∧
    0 < negPayloadParams.water_density ∧
    optimize_design negPayloadParams = .error .uncaughtTypeError := by
  refine ⟨by norm_num [negPayloadParams, defaultParams],
    by norm_num [negPayloadParams, defaultParams],
    by norm_num [negPayloadParams, defaultParams], ?_⟩
  have hA : ¬(negPayloadParams.water_density * (negPayloadParams.submersion_pct / 100) = 0) := by
    norm_num [negPayloadParams, defaultParams]
  have hreq : opt_required_vol negPayloadParams = -3.28125 := by
    norm_num [opt_required_vol, negPayloadParams, defaultParams]
  have hB : opt_required_vol negPayloadParams / pi_lit < 0 := by
    rw [hreq]
    apply div_neg_of_neg_of_pos (by norm_num)
    norm_num [pi_lit]
  simp only [optimize_design, if_neg hA, if_pos hB]

/-- Claim C7 amended: for every input with nonnegative payload and positive
safety factor, submersion percentage and water density, the optimizer
returns exactly the claimed pair: the whole-inch rounding of 12 times the
cube root of (payload x 1.4 x safetyFactor / 2) / (waterDensity x
submersionPct / 100) / pi, and the 2-decimal rounding of 4 times that cube
root.  (For negative payload the call faults instead, see the
counterexample.) -/
theorem optimize_formula_nonneg_payload (p : Params)
    (hpay : 0 ≤ p.payload) (hsf : 0 < p.safety_factor)
    (hsub : 0 < p.submersion_pct) (hwd : 0 < p.water_density) :
    optimize_design p =
      .ok (pyRound (12 * ((p.payload * 1.4 * p.safety_factor / 2 /
              (p.water_density * p.submersion_pct / 100)) / pi_lit) ^ ((1 : ℝ) / 3)),
           pyRound2 (4 * ((p.payload * 1.4 * p.safety_factor / 2 /
              (p.water_density * p.submersion_pct / 100)) / pi_lit) ^ ((1 : ℝ) / 3))) := by
  have hden : 0 < p.water_density * (p.submersion_pct / 100) := by
    apply mul_pos hwd
    linarith
  have hreq : 0 ≤ opt_required_vol p := by
    unfold opt_required_vol
    apply div_nonneg ?_ hden.le
    apply div_nonneg ?_ (by norm_num)
    exact mul_nonneg (mul_nonneg hpay (by norm_num)) hsf.le
  have hpi : (0 : ℝ) < pi_lit := by norm_num [pi_lit]
  have hB : ¬(opt_required_vol p / pi_lit < 0) := by
    push_neg
    exact div_nonneg hreq hpi.le
  have hbase : opt_required_vol p / pi_lit =
      (p.payload * 1.4 * p.safety_factor / 2 /
        (p.water_density * p.submersion_pct / 100)) / pi_lit := by
    unfold opt_required_vol
    ring_nf
  simp only [optimize_design, if_neg hden.ne', if_neg hB]
  unfold opt_diameter_ft
  rw [hbase]
  ring_nf

/-- Witness for the amended claim C7 at the default input. -/
theorem optimize_formula_nonneg_payload_witness :
    (0 : ℝ) ≤ defaultParams.payload ∧
    (0 : ℝ) < defaultParams.safety_factor ∧
    (0 : ℝ) < defaultParams.submersion_pct ∧
    (0 : ℝ) < defaultParams.water_density ∧
    optimize_design defaultParams =
      .ok (pyRound (12 * ((defaultParams.payload * 1.4 * defaultParams.safety_factor / 2 /
              (defaultParams.water_density * defaultParams.submersion_pct / 100)) / pi_lit)
                ^ ((1 : ℝ) / 3)),
           pyRound2 (4 * ((defaultParams.payload * 1.4 * defaultParams.safety_factor / 2 /
              (defaultParams.water_density * defaultParams.submersion_pct / 100)) / pi_lit)
                ^ ((1 : ℝ) / 3))) :=
  ⟨by norm_num [defaultParams], by norm_num [defaultParams], by norm_num [defaultParams],
    by norm_num [defaultParams],
    optimize_formula_nonneg_payload defaultParams (by norm_num [defaultParams])
      (by norm_num [defaultParams]) (by norm_num [defaultParams]) (by norm_num [defaultParams])⟩

/-- With the cone percentage zero and the default 12 inch diameter the slant
height degenerates to the radius, one half foot. -/
theorem coneZero_slant : slant_height coneZeroParams = 1 / 2 := by
  have harg : (radius_ft coneZeroParams) ^ 2 + (cone_length_ft coneZeroParams) ^ 2
      = ((1 : ℝ) / 2) ^ 2 := by
    norm_num [radius_ft, diameter_ft, cone_length_ft, cone_frac, coneZeroParams, defaultParams]
  unfold slant_height
  rw [harg, Real.sqrt_sq (by norm_num)]

/-- Claim C4 counterexample: at cone percentage zero (defaults otherwise,
radius one half foot) the cone surface area is not zero: the cone lateral
area formula degenerates to pi times radius squared, a second end cap, so the
surface area per pontoon is not the cylinder lateral area plus one end cap. -/
theorem cone_pct_zero_surface_area_ne_zero :
    coneZeroParams.cone_pct = 0 ∧
    cone_surface_area coneZeroParams ≠ 0 ∧
    total_surface_area_per_pontoon coneZeroParams ≠
      cylinder_surface_area coneZeroParams + end_cap_area coneZeroParams := by
  have hcsa : cone_surface_area coneZeroParams = pi_lit * (1 / 4) := by
    unfold cone_surface_area
    rw [coneZero_slant]
    norm_num [radius_ft, diameter_ft, coneZeroParams, defaultParams]
    ring
  have hpos : (0 : ℝ) < pi_lit * (1 / 4) := by norm_num [pi_lit]
  refine ⟨by norm_num [coneZeroParams, defaultParams], ?_, ?_⟩
  · rw [hcsa]
    exact hpos.ne'
  · unfold total_surface_area_per_pontoon
    intro h
    rw [hcsa] at h
    have := hpos
    linarith [h]

/-- Claim C4 amended: for any input with cone percentage zero and nonnegative
diameter, the cone volume is zero but the cone surface area equals the end
cap area (pi times radius squared), so the surface area per pontoon is the
cylinder lateral area plus two end caps: a closed cylinder, not a cylinder
with a single cap. -/
theorem cone_pct_zero_closed_cylinder (p : Params) (hc : p.cone_pct = 0)
    (hd : 0 ≤ p.diameter_in) :
    cone_volume p = 0 ∧
    cone_surface_area p = end_cap_area p ∧
    total_surface_area_per_pontoon p =
      cylinder_surface_area p + 2 * end_cap_area p := by
  have hcl : cone_length_ft p = 0 := by
    unfold cone_length_ft cone_frac
    rw [hc]
    ring
  have hr : 0 ≤ radius_ft p := by
    unfold radius_ft diameter_ft
    have h1 : 0 ≤ p.diameter_in / 12 := div_nonneg hd (by norm_num)
    exact div_nonneg h1 (by norm_num)
  have hs : slant_height p = radius_ft p := by
    unfold slant_height
    rw [hcl, show (radius_ft p) ^ 2 + (0 : ℝ) ^ 2 = (radius_ft p) ^ 2 from by ring,
      Real.sqrt_sq hr]
  refine ⟨?_, ?_, ?_⟩
  · unfold cone_volume
    rw [hcl]
    ring
  · unfold cone_surface_area end_cap_area
    rw [hs]
    ring
  · unfold total_surface_area_per_pontoon cone_surface_area end_cap_area
    rw [hs]
    ring

/-- Witness for the amended claim C4 at the concrete zero-cone input. -/
theorem cone_pct_zero_closed_cylinder_witness :
    coneZeroParams.cone_pct = 0 ∧ (0 : ℝ) ≤ coneZeroParams.diameter_in ∧
    (cone_volume coneZeroParams = 0 ∧
      cone_surface_area coneZeroParams = end_cap_area coneZeroParams ∧
      total_surface_area_per_pontoon coneZeroParams =
        cylinder_surface_area coneZeroParams + 2 * end_cap_area coneZeroParams) := by
  have h1 : coneZeroParams.cone_pct = 0 := by norm_num [coneZeroParams, defaultParams]
  have h2 : (0 : ℝ) ≤ coneZeroParams.diameter_in := by norm_num [coneZeroParams, defaultParams]
  exact ⟨h1, h2, cone_pct_zero_closed_cylinder coneZeroParams h1 h2⟩

/-- Volume per pontoon as an explicit quadratic in the diameter: the common
length and cone factor times the squared radius (diameter over 24, in feet). -/
theorem vol_formula (p : Params) (d : ℝ) :
    total_volume_per_pontoon { p with diameter_in := d } =
      pi_lit * (p.length_ft * (1 - p.cone_pct / 100) +
        p.length_ft * (p.cone_pct / 100) / 3) * (d / 24) ^ 2 := by
  unfold total_volume_per_pontoon cylinder_volume cone_volume cylinder_length_ft
    cone_length_ft cone_frac radius_ft diameter_ft
  dsimp only
  ring

/-- The squared slant height as an explicit function of the diameter. -/
theorem slant_sq_formula (p : Params) (d : ℝ) :
    slant_height { p with diameter_in := d } ^ 2 =
      (d / 24) ^ 2 + (p.length_ft * (p.cone_pct / 100)) ^ 2 := by
  unfold slant_height
  rw [Real.sq_sqrt (by positivity)]
  unfold radius_ft diameter_ft cone_length_ft cone_frac
  dsimp only
  ring

/-- Surface area per pontoon as an explicit function of the diameter and the
slant height. -/
theorem sa_formula (p : Params) (d : ℝ) :
    total_surface_area_per_pontoon { p with diameter_in := d } =
      pi_lit * (2 * (d / 24) * (p.length_ft * (1 - p.cone_pct / 100)) +
        (d / 24) * slant_height { p with diameter_in := d } + (d / 24) ^ 2) := by
  unfold total_surface_area_per_pontoon cylinder_surface_area cone_surface_area
    end_cap_area cylinder_length_ft cone_frac radius_ft diameter_ft
  dsimp only
  ring

/-- Buoyant force as the submersion and water density factor times the
volume per pontoon. -/
theorem buoyant_formula (p : Params) (d : ℝ) :
    total_buoyant_force { p with diameter_in := d } =
      2 * (p.submersion_pct / 100) * p.water_density *
        total_volume_per_pontoon { p with diameter_in := d } := by
  unfold total_buoyant_force submerged_volume_per_pontoon submersion_frac
  dsimp only
  ring

/-- Total boat weight as payload plus foam, coating and frame contributions. -/
theorem weight_formula (p : Params) (d : ℝ) :
    total_boat_weight { p with diameter_in := d } =
      p.payload +
        2 * (total_volume_per_pontoon { p with diameter_in := d } * p.foam_density +
          total_surface_area_per_pontoon { p with diameter_in := d } * p.coating_weight) +
        ((p.num_cross_beams : ℝ) * p.cross_beam_length + 2 * p.length_ft) * p.tube_weight := by
  unfold total_boat_weight pontoon_weight foam_weight_per_pontoon
    coating_weight_per_pontoon frame_weight total_tube_length
  dsimp only

/-- Claim C8 counterexample: the claim quantifies over all inputs with
positive length, submersion and water density and makes no assumption on the
sign of the diameters.  With diameters -24 and -12 inches (the second
strictly larger) and the other defaults, the volume per pontoon strictly
decreases, so the claimed strict increase fails. -/
theorem monotonicity_fails_negative_diameter :
    negDiaSmall.diameter_in < negDiaLarge.diameter_in ∧
    0 < negDiaSmall.length_ft ∧ 0 < negDiaSmall.submersion_pct ∧
    0 < negDiaSmall.water_density ∧
    ¬((mkResults negDiaSmall).volume_per_pontoon <
        (mkResults negDiaLarge).volume_per_pontoon) := by
  refine ⟨by norm_num [negDiaSmall, negDiaLarge, defaultParams],
    by norm_num [negDiaSmall, defaultParams],
    by norm_num [negDiaSmall, defaultParams],
    by norm_num [negDiaSmall, defaultParams], ?_⟩
  show ¬(total_volume_per_pontoon negDiaSmall < total_volume_per_pontoon negDiaLarge)
  unfold total_volume_per_pontoon cylinder_volume cone_volume cylinder_length_ft
    cone_length_ft cone_frac radius_ft diameter_ft pi_lit
  norm_num [negDiaSmall, negDiaLarge, defaultParams]

set_option maxHeartbeats 1000000 in
/-- Claim C8 amended: increasing the diameter strictly increases the volume
per pontoon, the buoyant force and the actual safety factor, provided the
smaller diameter is nonnegative, the cone percentage is at most 100, the
length, submersion percentage, water density and payload are positive, and
the material and frame parameters are nonnegative (without a nonnegative
diameter the volume decreases, see the counterexample; with zero payload,
zero coating weight and zero frame weight the safety factor would be
constant in the diameter). -/
theorem monotone_in_diameter (p : Params) (d1 d2 : ℝ)
    (hd1 : 0 ≤ d1) (hdd : d1 < d2) (hcone : p.cone_pct ≤ 100)
    (hL : 0 < p.length_ft) (hsub : 0 < p.submersion_pct) (hwd : 0 < p.water_density)
    (hpay : 0 < p.payload) (hfd : 0 ≤ p.foam_density) (hcw : 0 ≤ p.coating_weight)
    (hcbl : 0 ≤ p.cross_beam_length) (hncb : 0 ≤ p.num_cross_beams)
    (htw : 0 ≤ p.tube_weight) :
    calculate_design { p with diameter_in := d1 } =
      .ok (mkResults { p with diameter_in := d1 }) ∧
    calculate_design { p with diameter_in := d2 } =
      .ok (mkResults { p with diameter_in := d2 }) ∧
    (mkResults { p with diameter_in := d1 }).volume_per_pontoon <
      (mkResults { p with diameter_in := d2 }).volume_per_pontoon ∧
    (mkResults { p with diameter_in := d1 }).total_buoyant_force <
      (mkResults { p with diameter_in := d2 }).total_buoyant_force ∧
    (mkResults { p with diameter_in := d1 }).actual_safety_factor <
      (mkResults { p with diameter_in := d2 }).actual_safety_factor := by
  have hpi : (0 : ℝ) < pi_lit := by norm_num [pi_lit]
  have hcylL : 0 ≤ p.length_ft * (1 - p.cone_pct / 100) :=
    mul_nonneg hL.le (by linarith)
  have hKpos : 0 < pi_lit * (p.length_ft * (1 - p.cone_pct / 100) +
      p.length_ft * (p.cone_pct / 100) / 3) := by
    apply mul_pos hpi
    nlinarith [hL, hcone]
  have hr1 : (0 : ℝ) ≤ d1 / 24 := by linarith
  have hr2 : (0 : ℝ) ≤ d2 / 24 := by linarith
  have hrlt : d1 / 24 < d2 / 24 := by linarith
  have hVlt : total_volume_per_pontoon { p with diameter_in := d1 } <
      total_volume_per_pontoon { p with diameter_in := d2 } := by
    rw [vol_formula, vol_formula]
    apply mul_lt_mul_of_pos_left ?_ hKpos
    nlinarith [hr1, hrlt]
  have hV1nn : 0 ≤ total_volume_per_pontoon { p with diameter_in := d1 } := by
    rw [vol_formula]
    exact mul_nonneg hKpos.le (sq_nonneg _)
  have hV2nn : 0 ≤ total_volume_per_pontoon { p with diameter_in := d2 } := by
    rw [vol_formula]
    exact mul_nonneg hKpos.le (sq_nonneg _)
  have hs1nn : 0 ≤ slant_height { p with diameter_in := d1 } := Real.sqrt_nonneg _
  have hs2nn : 0 ≤ slant_height { p with diameter_in := d2 } := Real.sqrt_nonneg _
  have hcross : (d1 / 24) * slant_height { p with diameter_in := d2 } ≤
      (d2 / 24) * slant_height { p with diameter_in := d1 } := by
    have hsq12 : (d1 / 24) ^ 2 ≤ (d2 / 24) ^ 2 := by nlinarith [hr1, hrlt]
    have hsq : ((d1 / 24) * slant_height { p with diameter_in := d2 }) ^ 2 ≤
        ((d2 / 24) * slant_height { p with diameter_in := d1 }) ^ 2 := by
      rw [mul_pow, mul_pow, slant_sq_formula, slant_sq_formula]
      nlinarith [mul_nonneg (sub_nonneg.mpr hsq12)
        (sq_nonneg (p.length_ft * (p.cone_pct / 100)))]
    have h1nn : 0 ≤ (d1 / 24) * slant_height { p with diameter_in := d2 } :=
      mul_nonneg hr1 hs2nn
    have h2nn : 0 ≤ (d2 / 24) * slant_height { p with diameter_in := d1 } :=
      mul_nonneg hr2 hs1nn
    have h := Real.sqrt_le_sqrt hsq
    rwa [Real.sqrt_sq h1nn, Real.sqrt_sq h2nn] at h
  have hSA1nn : 0 ≤ total_surface_area_per_pontoon { p with diameter_in := d1 } := by
    rw [sa_formula]
    apply mul_nonneg hpi.le
    have t1 : 0 ≤ 2 * (d1 / 24) * (p.length_ft * (1 - p.cone_pct / 100)) :=
      mul_nonneg (mul_nonneg (by norm_num) hr1) hcylL
    have t2 : 0 ≤ (d1 / 24) * slant_height { p with diameter_in := d1 } :=
      mul_nonneg hr1 hs1nn
    linarith [t1, t2, sq_nonneg (d1 / 24)]
  have hSA2nn : 0 ≤ total_surface_area_per_pontoon { p with diameter_in := d2 } := by
    rw [sa_formula]
    apply mul_nonneg hpi.le
    have t1 : 0 ≤ 2 * (d2 / 24) * (p.length_ft * (1 - p.cone_pct / 100)) :=
      mul_nonneg (mul_nonneg (by norm_num) hr2) hcylL
    have t2 : 0 ≤ (d2 / 24) * slant_height { p with diameter_in := d2 } :=
      mul_nonneg hr2 hs2nn
    linarith [t1, t2, sq_nonneg (d2 / 24)]
  have hVSA : total_volume_per_pontoon { p with diameter_in := d1 } *
        total_surface_area_per_pontoon { p with diameter_in := d2 } ≤
      total_volume_per_pontoon { p with diameter_in := d2 } *
        total_surface_area_per_pontoon { p with diameter_in := d1 } := by
    rw [vol_formula, vol_formula, sa_formula, sa_formula]
    have hin : 0 ≤ p.length_ft * (1 - p.cone_pct / 100) +
        p.length_ft * (p.cone_pct / 100) / 3 := by nlinarith [hL, hcone]
    have t1 : 0 ≤ (d1 / 24) * ((d2 / 24) * ((d2 / 24) - (d1 / 24))) :=
      mul_nonneg hr1 (mul_nonneg hr2 (by linarith))
    have t2 : 0 ≤ (d1 / 24) * ((d2 / 24) *
        ((d2 / 24) * slant_height { p with diameter_in := d1 } -
          (d1 / 24) * slant_height { p with diameter_in := d2 })) :=
      mul_nonneg hr1 (mul_nonneg hr2 (by linarith [hcross]))
    have t3 : 0 ≤ (p.length_ft * (1 - p.cone_pct / 100)) *
        ((d1 / 24) * ((d2 / 24) * ((d2 / 24) - (d1 / 24)))) := mul_nonneg hcylL t1
    have hfac : 0 ≤ pi_lit * pi_lit * (p.length_ft * (1 - p.cone_pct / 100) +
        p.length_ft * (p.cone_pct / 100) / 3) :=
      mul_nonneg (mul_nonneg hpi.le hpi.le) hin
    have big : 0 ≤ (pi_lit * pi_lit * (p.length_ft * (1 - p.cone_pct / 100) +
        p.length_ft * (p.cone_pct / 100) / 3)) *
        (2 * ((p.length_ft * (1 - p.cone_pct / 100)) *
            ((d1 / 24) * ((d2 / 24) * ((d2 / 24) - (d1 / 24))))) +
          (d1 / 24) * ((d2 / 24) *
            ((d2 / 24) * slant_height { p with diameter_in := d1 } -
              (d1 / 24) * slant_height { p with diameter_in := d2 }))) :=
      mul_nonneg hfac (by linarith [t3, t2])
    linarith [big]
  have hfw : 0 ≤ ((p.num_cross_beams : ℝ) * p.cross_beam_length + 2 * p.length_ft) *
      p.tube_weight := by
    apply mul_nonneg ?_ htw
    have : (0 : ℝ) ≤ (p.num_cross_beams : ℝ) := by exact_mod_cast hncb
    have := mul_nonneg this hcbl
    linarith
  have hW1pos : 0 < total_boat_weight { p with diameter_in := d1 } := by
    rw [weight_formula]
    have t1 : 0 ≤ total_volume_per_pontoon { p with diameter_in := d1 } * p.foam_density :=
      mul_nonneg hV1nn hfd
    have t2 : 0 ≤ total_surface_area_per_pontoon { p with diameter_in := d1 } *
        p.coating_weight := mul_nonneg hSA1nn hcw
    linarith [hpay, hfw, t1, t2]
  have hW2pos : 0 < total_boat_weight { p with diameter_in := d2 } := by
    rw [weight_formula]
    have t1 : 0 ≤ total_volume_per_pontoon { p with diameter_in := d2 } * p.foam_density :=
      mul_nonneg hV2nn hfd
    have t2 : 0 ≤ total_surface_area_per_pontoon { p with diameter_in := d2 } *
        p.coating_weight := mul_nonneg hSA2nn hcw
    linarith [hpay, hfw, t1, t2]
  have hsubwd : 0 < 2 * (p.submersion_pct / 100) * p.water_density := by
    apply mul_pos ?_ hwd
    have : (0 : ℝ) < p.submersion_pct / 100 := by linarith
    linarith
  have hBlt : total_buoyant_force { p with diameter_in := d1 } <
      total_buoyant_force { p with diameter_in := d2 } := by
    rw [buoyant_formula, buoyant_formula]
    exact mul_lt_mul_of_pos_left hVlt hsubwd
  have hasf : actual_safety_factor { p with diameter_in := d1 } <
      actual_safety_factor { p with diameter_in := d2 } := by
    unfold actual_safety_factor
    rw [div_lt_div_iff₀ hW1pos hW2pos]
    rw [buoyant_formula, buoyant_formula, weight_formula, weight_formula]
    have hterm1 : 0 < (p.payload +
        ((p.num_cross_beams : ℝ) * p.cross_beam_length + 2 * p.length_ft) * p.tube_weight) *
        (total_volume_per_pontoon { p with diameter_in := d2 } -
          total_volume_per_pontoon { p with diameter_in := d1 }) :=
      mul_pos (by linarith [hpay, hfw]) (by linarith [hVlt])
    have hterm2 : 0 ≤ 2 * p.coating_weight *
        (total_volume_per_pontoon { p with diameter_in := d2 } *
            total_surface_area_per_pontoon { p with diameter_in := d1 } -
          total_volume_per_pontoon { p with diameter_in := d1 } *
            total_surface_area_per_pontoon { p with diameter_in := d2 }) :=
      mul_nonneg (by linarith [hcw]) (by linarith [hVSA])
    linarith [mul_pos hsubwd hterm1, mul_nonneg hsubwd.le hterm2]
  refine ⟨?_, ?_, hVlt, hBlt, hasf⟩
  · unfold calculate_design
    rw [if_neg hW1pos.ne']
  · unfold calculate_design
    rw [if_neg hW2pos.ne']

/-- Witness for the amended claim C8: the default input with diameters 12 and
24 inches satisfies every hypothesis, so the volumes, buoyant forces and
actual safety factors strictly increase. -/
theorem monotone_in_diameter_witness :
    (0 : ℝ) ≤ 12 ∧ (12 : ℝ) < 24 ∧ defaultParams.cone_pct ≤ 100 ∧
    0 < defaultParams.length_ft ∧ 0 < defaultParams.submersion_pct ∧
    0 < defaultParams.water_density ∧ 0 < defaultParams.payload ∧
    ((mkResults { defaultParams with diameter_in := 12 }).volume_per_pontoon <
      (mkResults { defaultParams with diameter_in := 24 }).volume_per_pontoon ∧
    (mkResults { defaultParams with diameter_in := 12 }).total_buoyant_force <
      (mkResults { defaultParams with diameter_in := 24 }).total_buoyant_force ∧
    (mkResults { defaultParams with diameter_in := 12 }).actual_safety_factor <
      (mkResults { defaultParams with diameter_in := 24 }).actual_safety_factor) := by
  have h := monotone_in_diameter defaultParams 12 24 (by norm_num) (by norm_num)
    (by norm_num [defaultParams]) (by norm_num [defaultParams])
    (by norm_num [defaultParams]) (by norm_num [defaultParams])
    (by norm_num [defaultParams]) (by norm_num [defaultParams])
    (by norm_num [defaultParams]) (by norm_num [defaultParams])
    (by norm_num [defaultParams]) (by norm_num [defaultParams])
  exact ⟨by norm_num, by norm_num, by norm_num [defaultParams], by norm_num [defaultParams],
    by norm_num [defaultParams], by norm_num [defaultParams], by norm_num [defaultParams],
    h.2.2.1, h.2.2.2.1, h.2.2.2.2⟩

/-- Claim C1: for every input, the status field of the result record built by
`calculate_design` is `VIABLE` exactly when `total_buoyant_force` is at least
`total_boat_weight * safety_factor` (the required displacement), and the
status is `INSUFFICIENT BUOYANCY` exactly otherwise. -/
theorem status_viable_iff_buoyancy_ge_required (p : Params) :
    ((mkResults p).status = "VIABLE" ↔
      total_buoyant_force p ≥ total_boat_weight p * p.safety_factor) ∧
    ((mkResults p).status = "INSUFFICIENT BUOYANCY" ↔
      total_buoyant_force p < total_boat_weight p * p.safety_factor) := by
  have h : (mkResults p).status = status p := rfl
  rw [h]
  unfold status required_displacement
  split_ifs with hlt
  · exact ⟨iff_of_false (by decide) (not_le.mpr hlt), iff_of_true rfl hlt⟩
  · exact ⟨iff_of_true rfl (not_lt.mp hlt), iff_of_false (by decide) hlt⟩

/-- Claim C2: on the literal default input (payload 100, safety factor 1.8,
submersion 60 percent, diameter 12 in, length 6 ft, cone 25 percent, foam
density 1, coating weight 0.03, water density 64, cross beam length 4, four
cross beams, tube weight 0.78) the evaluator computes diameter 1 ft,
radius 0.5 ft, cone length 1.5 ft, cylinder length 4.5 ft, the stated cylinder
and cone volume formulas exactly, and the three volumes agree with 3.534,
0.3927 and 3.927 within half a unit in the last stated decimal place. -/
theorem literal_scenario_geometry_values :
    diameter_ft defaultParams = 1 ∧
    radius_ft defaultParams = 0.5 ∧
    cone_length_ft defaultParams = 1.5 ∧
    cylinder_length_ft defaultParams = 4.5 ∧
    cylinder_volume defaultParams = pi_lit * 0.25 * 4.5 ∧
    cone_volume defaultParams = 1 / 3 * pi_lit * 0.25 * 1.5 ∧
    total_volume_per_pontoon defaultParams = cylinder_volume defaultParams + cone_volume defaultParams ∧
    |cylinder_volume defaultParams - 3.534| < 0.0005 ∧
    |cone_volume defaultParams - 0.3927| < 0.0005 ∧
    |total_volume_per_pontoon defaultParams - 3.927| < 0.0005 := by
  refine ⟨?_, ?_, ?_, ?_, ?_, ?_, rfl, ?_, ?_, ?_⟩ <;>
    norm_num [abs_sub_lt_iff, total_volume_per_pontoon, cylinder_volume, cone_volume,
      cylinder_length_ft, cone_length_ft, cone_frac, radius_ft, diameter_ft,
      defaultParams, pi_lit]
  all_goals rw [abs_lt]
  all_goals constructor <;> norm_num

/-- Claim C9: the draft field exposed in the result record is in inches:
it is `draft_ft * 12`, which equals `diameter_in * (submersion_pct / 100)`;
the record has a `draft_in` field and no draft-in-feet field. -/
theorem draft_reported_in_inches (p : Params) :
    (mkResults p).draft_in = draft_ft p * 12 ∧
    (mkResults p).draft_in = p.diameter_in * (p.submersion_pct / 100) := by
  refine ⟨rfl, ?_⟩
  show draft_ft p * 12 = _
  unfold draft_ft diameter_ft submersion_frac
  ring

end PontoonCalc
